import Mathlib

/-!
Shallow embedding of the master-plan document registration service.

The embedding follows the source:
* `app/models/masterplandoc.js` — the `MasterPlanDoc` row (here `DocRecord`);
  the Document Store is a `List DocRecord`.
* `app/controllers/masterPlanDocController.js` — the handlers
  `createMasterPlanDoc`, `checkDocIdExists`, `getMasterPlanDocById` and
  `uploadFile`.  JavaScript `undefined`/`null` request fields are `Option`;
  JS truthiness of a string is "non-empty", of a number "non-zero".
  `new Date()` / `Date.now()` are passed in as an explicit `now : Nat`.
* `app/routes/masterPlanDocs.js` — the GET route table (`serverGetStatus`).
* `frontend/src/services/masterPlanDocService.ts` — the client-side
  `checkDocIdExists` (here `clientCheckDocIdExists`).

Filesystem effects of the upload handler are modelled as the `dirs` and
`files` components of `SystemState`.
-/

/-- A persisted row of the `masterplandocs` table (model `MasterPlanDoc`).
Timestamps are abstract clock values (`Nat`). -/
structure DocRecord where
  id : Nat
  doc_id : String
  doc_type : String
  doc_title : String
  revision_no : String
  year : Int
  quarter : Option String
  owner : String
  status : String
  doc_status : String
  is_uploaded : Bool
  uploaded_file : Option String
  file_type : Option String
  file_size : Option Int
  storage_path : Option String
  download_url : Option String
  uploaded_at : Option String
  created_at : Nat
  updated_at : Nat
deriving Repr, DecidableEq

/-- JSON body of `POST /api/masterplandocs` as destructured by
`createMasterPlanDoc`.  `none` is an absent (or `null`) field. -/
structure CreateRequest where
  doc_id : Option String := none
  doc_type : Option String := none
  doc_title : Option String := none
  revision_no : Option String := none
  year : Option Int := none
  quarter : Option String := none
  owner : Option String := none
  status : Option String := none
  doc_status : Option String := none
  is_uploaded : Option Bool := none
  uploaded_file : Option String := none
  file_type : Option String := none
  file_size : Option Int := none
  storage_path : Option String := none
  download_url : Option String := none
  uploaded_at : Option String := none
deriving Repr, DecidableEq

/-- HTTP response of the create handler: status code, `message`, and the
created row when present. -/
structure CreateResponse where
  status : Nat
  message : String
  record : Option DocRecord
deriving Repr, DecidableEq

/-- JS truthiness of an optional string field: present and non-empty. -/
def truthyS : Option String → Bool
  | none => false
  | some s => !(s == "")

/-- JS truthiness of an optional number field: present and non-zero. -/
def truthyI : Option Int → Bool
  | none => false
  | some n => !(n == 0)

/-- JS `a || b` on nullable strings (empty string is falsy). -/
def jsOrS (a b : Option String) : Option String :=
  match a with
  | some s => if s == "" then b else some s
  | none => b

/-- JS `v || null` on a nullable string (used for `quarter`,
`uploaded_file`, `storage_path`, `download_url`, `uploaded_at`). -/
def presentS (v : Option String) : Option String := jsOrS v none

/-- JS `v ? parseInt(v) : null` on a nullable number (used for `file_size`). -/
def presentI : Option Int → Option Int
  | some n => if n == 0 then none else some n
  | none => none

/-- The controller's ordered required-field table
`{ doc_id, doc_type, doc_title, revision_no, year, owner, status }`,
each paired with its JS truthiness. -/
def requiredEntries (r : CreateRequest) : List (String × Bool) :=
  [("doc_id", truthyS r.doc_id),
   ("doc_type", truthyS r.doc_type),
   ("doc_title", truthyS r.doc_title),
   ("revision_no", truthyS r.revision_no),
   ("year", truthyI r.year),
   ("owner", truthyS r.owner),
   ("status", truthyS r.status)]

/-- `Object.entries(requiredFields).filter(([k, v]) => !v).map(([k]) => k)`. -/
def missingFields (r : CreateRequest) : List String :=
  ((requiredEntries r).filter (fun p => !p.2)).map Prod.fst

/-- `missingFields.join(', ')`. -/
def joinComma : List String → String
  | [] => ""
  | [x] => x
  | x :: xs => x ++ ", " ++ joinComma xs

/-- The controller's `typeMap` of known MIME types to short tokens. -/
def typeMap (t : String) : Option String :=
  if t == "application/vnd.openxmlformats-officedocument.wordprocessingml.document" then some "docx"
  else if t == "application/vnd.openxmlformats-officedocument.spreadsheetml.sheet" then some "xlsx"
  else if t == "application/vnd.openxmlformats-officedocument.presentationml.presentation" then some "pptx"
  else if t == "application/msword" then some "doc"
  else if t == "application/pdf" then some "pdf"
  else if t == "text/plain" then some "txt"
  else none

/-- `simplifyFileType`: `null` for a missing/empty type, otherwise the
`typeMap` token or `fileType.substring(0, 20)`. -/
def simplifyFileType : Option String → Option String
  | none => none
  | some t =>
    if t == "" then none
    else some ((typeMap t).getD (String.mk (t.toList.take 20)))

/-- The stored `file_type`:
`simplifyFileType(file_type) || file_type?.substring(0, 50)`. -/
def dbFileType (v : Option String) : Option String :=
  jsOrS (simplifyFileType v) (v.map (fun s => String.mk (s.toList.take 50)))

/-- `MasterPlanDoc.findOne({ where: { doc_id } })` viewed as existence. -/
def docIdExists (store : List DocRecord) (d : String) : Bool :=
  store.any (fun row => row.doc_id == d)

/-- Auto-increment surrogate key for the next inserted row. -/
def nextId (store : List DocRecord) : Nat :=
  (store.map (fun row => row.id)).foldl max 0 + 1

/-- `createMasterPlanDoc(req, res)`: validate required fields, reject a
duplicate `doc_id`, otherwise build `dbData` and insert it.  `now` is the
value of `new Date()` in the handler. -/
def createMasterPlanDoc (store : List DocRecord) (now : Nat) (r : CreateRequest) :
    CreateResponse × List DocRecord :=
  let missing := missingFields r
  if 0 < missing.length then
    ({ status := 400,
       message := "Missing required fields: " ++ joinComma missing,
       record := none }, store)
  else if docIdExists store (r.doc_id.getD "") then
    ({ status := 400, message := "Document ID already exists", record := none }, store)
  else
    let row : DocRecord :=
      { id := nextId store
        doc_id := r.doc_id.getD ""
        doc_type := r.doc_type.getD ""
        doc_title := r.doc_title.getD ""
        revision_no := r.revision_no.getD ""
        year := r.year.getD 0
        quarter := presentS r.quarter
        owner := r.owner.getD ""
        status := r.status.getD ""
        doc_status := r.doc_status.getD "Open"
        is_uploaded := r.is_uploaded.getD false
        uploaded_file := presentS r.uploaded_file
        file_type := dbFileType r.file_type
        file_size := presentI r.file_size
        storage_path := presentS r.storage_path
        download_url := presentS r.download_url
        uploaded_at := presentS r.uploaded_at
        created_at := now
        updated_at := now }
    ({ status := 201,
       message := "Master Plan Document created successfully",
       record := some row }, store ++ [row])

/-- An uploaded file as exposed by the upload middleware
(`req.files.document`). -/
structure FileData where
  name : String
  size : Nat
  mimetype : String
deriving Repr, DecidableEq

/-- Multipart body of `POST /api/masterplandocs/upload`. -/
structure UploadRequest where
  file : Option FileData := none
  doc_id : Option String := none
  doc_type : Option String := none
  revision_no : Option String := none
deriving Repr, DecidableEq

/-- Response of the upload handler. -/
structure UploadResponse where
  status : Nat
  success : Bool
  message : String
  fileName : Option String
  storagePath : Option String
  downloadUrl : Option String
deriving Repr, DecidableEq

/-- Server state: the Document Store plus the File Store, the latter as
the sets of existing directories and stored file paths. -/
structure SystemState where
  store : List DocRecord
  dirs : List String
  files : List String
deriving Repr, DecidableEq

/-- The upload handler's MIME allow-list. -/
def allowedTypes : List String :=
  ["application/pdf",
   "application/msword",
   "application/vnd.openxmlformats-officedocument.wordprocessingml.document",
   "application/vnd.ms-excel",
   "application/vnd.openxmlformats-officedocument.spreadsheetml.sheet",
   "application/vnd.ms-powerpoint",
   "application/vnd.openxmlformats-officedocument.presentationml.presentation",
   "text/plain"]

/-- `path.join(__dirname, '../../uploads/master-plans')`, kept relative. -/
def uploadsRoot : String := "uploads/master-plans"

/-- The final segment of a slash-separated path (`path.basename` before
extension stripping). -/
def lastSegment (cs : List Char) : List Char :=
  cs.foldl (fun acc c => if c = '/' then [] else acc ++ [c]) []

/-- Characters from the last dot of a basename (inclusive); `[]` when the
basename has no dot or its only leading character is the dot
(`path.extname` semantics). -/
def extChars (b : List Char) : List Char :=
  match ((List.range b.length).filter (fun i => b.get? i = some '.')).getLast? with
  | none => []
  | some 0 => []
  | some i => b.drop i

/-- `path.extname(name)`. -/
def extname (p : String) : String :=
  String.mk (extChars (lastSegment p.toList))

/-- `path.basename(name, path.extname(name))`: the final path segment with
its extension removed. -/
def basenameNoExt (p : String) : String :=
  let b := lastSegment p.toList
  let e := extChars b
  String.mk (b.take (b.length - e.length))

/-- Decimal digit to character. -/
def digitChar (d : Nat) : Char := Char.ofNat (48 + d)

/-- Fuel-driven decimal rendering of a natural number. -/
def natReprAux : Nat → Nat → List Char
  | 0, _ => []
  | fuel + 1, n =>
    if n < 10 then [digitChar n]
    else natReprAux fuel (n / 10) ++ [digitChar (n % 10)]

/-- Decimal rendering of a natural number (`Date.now()` timestamps in
generated file names). -/
def natRepr (n : Nat) : String := String.mk (natReprAux (n + 1) n)

/-- `uploadFile(req, res)`: validate presence, metadata, size and MIME
type in source order, then create the per-`doc_id` directory and move the
file into it.  `now` is `Date.now()` in the handler. -/
def uploadFile (s : SystemState) (now : Nat) (r : UploadRequest) :
    UploadResponse × SystemState :=
  match r.file with
  | none =>
    ({ status := 400, success := false, message := "No file uploaded",
       fileName := none, storagePath := none, downloadUrl := none }, s)
  | some document =>
    if !(truthyS r.doc_id && truthyS r.doc_type && truthyS r.revision_no) then
      ({ status := 400, success := false,
         message := "All metadata (doc_id, doc_type, revision_no) is required for file upload",
         fileName := none, storagePath := none, downloadUrl := none }, s)
    else if 10 * 1024 * 1024 < document.size then
      ({ status := 400, success := false,
         message := "File size must be less than 10MB",
         fileName := none, storagePath := none, downloadUrl := none }, s)
    else if !(allowedTypes.contains document.mimetype) then
      ({ status := 400, success := false, message := "File type not supported",
         fileName := none, storagePath := none, downloadUrl := none }, s)
    else
      let d := r.doc_id.getD ""
      let dirs1 := if s.dirs.contains uploadsRoot then s.dirs else s.dirs ++ [uploadsRoot]
      let docFolder := uploadsRoot ++ "/" ++ d
      let dirs2 := if dirs1.contains docFolder then dirs1 else dirs1 ++ [docFolder]
      let uniqueFileName :=
        d ++ "_" ++ basenameNoExt document.name ++ "_" ++ natRepr now ++ extname document.name
      let filePath := docFolder ++ "/" ++ uniqueFileName
      ({ status := 200, success := true,
         message := "File uploaded successfully and stored permanently",
         fileName := some uniqueFileName,
         storagePath := some ("/uploads/master-plans/" ++ d ++ "/" ++ uniqueFileName),
         downloadUrl := some ("/api/masterplandocs/download/" ++ d ++ "/" ++ uniqueFileName) },
       { s with dirs := dirs2, files := s.files ++ [filePath] })

/-- Response of `GET /:id` (`getMasterPlanDocById`). -/
structure GetResponse where
  status : Nat
  record : Option DocRecord
deriving Repr, DecidableEq

/-- Response of `GET /check-doc-id/:doc_id` (`checkDocIdExists`). -/
structure CheckResponse where
  status : Nat
  docExists : Option Bool
deriving Repr, DecidableEq

/-- `checkDocIdExists(req, res)`: `{ exists: !!docPlan }` for a lookup by
the `doc_id` column. -/
def checkDocIdExistsHandler (store : List DocRecord) (d : String) : CheckResponse :=
  if d == "" then { status := 400, docExists := none }
  else { status := 200, docExists := some (docIdExists store d) }

/-- MySQL coercion of a string route parameter compared against the
integer primary-key column: the leading decimal digits, else 0. -/
def mysqlToNat (s : String) : Nat :=
  let ds := s.toList.takeWhile Char.isDigit
  ds.foldl (fun acc c => acc * 10 + (c.toNat - 48)) 0

/-- `getMasterPlanDocById(req, res)`: `findByPk(id)` — lookup by the
surrogate primary key, 404 when absent. -/
def getMasterPlanDocById (store : List DocRecord) (idParam : String) : GetResponse :=
  match store.find? (fun row => row.id == mysqlToNat idParam) with
  | some row => { status := 200, record := some row }
  | none => { status := 404, record := none }

/-- Split a URL path on `/`. -/
def splitSlash : List Char → List (List Char)
  | [] => [[]]
  | c :: rest =>
    let r := splitSlash rest
    if c = '/' then [] :: r
    else
      match r with
      | [] => [[c]]
      | h :: t => (c :: h) :: t

/-- Path segments of a URL suffix. -/
def splitPath (s : String) : List String :=
  (splitSlash s.toList).map String.mk

/-- Status of a `GET` under `/api/masterplandocs` per the route table in
`app/routes/masterPlanDocs.js`. -/
def serverGetStatus (store : List DocRecord) (path : List String) : Nat :=
  match path with
  | ["check-doc-id", d] => (checkDocIdExistsHandler store d).status
  | [] => 200
  | [d] => (getMasterPlanDocById store d).status
  | _ => 404

/-- `response.ok`: status in the 200–299 range. -/
def responseOk (status : Nat) : Bool := 200 ≤ status && status < 300

/-- The client service's `checkDocIdExists(doc_id)`: it fetches
`API_BASE_URL + "/masterplandocs/" + doc_id` and returns `response.ok`. -/
def clientCheckDocIdExists (store : List DocRecord) (d : String) : Bool :=
  responseOk (serverGetStatus store (splitPath d))

/-- The seven required fields of the create operation. -/
inductive ReqField where
  | doc_id | doc_type | doc_title | revision_no | year | owner | status
deriving Repr, DecidableEq

/-- The key under which a required field appears in the validation table. -/
def fieldName : ReqField → String
  | .doc_id => "doc_id"
  | .doc_type => "doc_type"
  | .doc_title => "doc_title"
  | .revision_no => "revision_no"
  | .year => "year"
  | .owner => "owner"
  | .status => "status"

/-- JS truthiness of a required field of a request. -/
def fieldTruthy (r : CreateRequest) : ReqField → Bool
  | .doc_id => truthyS r.doc_id
  | .doc_type => truthyS r.doc_type
  | .doc_title => truthyS r.doc_title
  | .revision_no => truthyS r.revision_no
  | .year => truthyI r.year
  | .owner => truthyS r.owner
  | .status => truthyS r.status

/-- Whether a required field is absent from the request body. -/
def fieldAbsent (r : CreateRequest) : ReqField → Bool
  | .doc_id => r.doc_id.isNone
  | .doc_type => r.doc_type.isNone
  | .doc_title => r.doc_title.isNone
  | .revision_no => r.revision_no.isNone
  | .year => r.year.isNone
  | .owner => r.owner.isNone
  | .status => r.status.isNone

/-- Whether a required field is present but carries the falsy value of its
type (the empty string, or 0 for `year`). -/
def fieldFalsyPresent (r : CreateRequest) : ReqField → Bool
  | .doc_id => r.doc_id == some ""
  | .doc_type => r.doc_type == some ""
  | .doc_title => r.doc_title == some ""
  | .revision_no => r.revision_no == some ""
  | .year => r.year == some 0
  | .owner => r.owner == some ""
  | .status => r.status == some ""

/-- Remove a required field from the request body. -/
def eraseField (r : CreateRequest) : ReqField → CreateRequest
  | .doc_id => { r with doc_id := none }
  | .doc_type => { r with doc_type := none }
  | .doc_title => { r with doc_title := none }
  | .revision_no => { r with revision_no := none }
  | .year => { r with year := none }
  | .owner => { r with owner := none }
  | .status => { r with status := none }

/-- Enumeration of the required fields. -/
def allReqFields : List ReqField :=
  [.doc_id, .doc_type, .doc_title, .revision_no, .year, .owner, .status]

/-- The spec's row invariant: `is_uploaded = true` forces non-null
`uploaded_file` and `storage_path`. -/
def uploadInvariant (row : DocRecord) : Bool :=
  !row.is_uploaded || (row.uploaded_file.isSome && row.storage_path.isSome)

/-- The full OOXML MIME strings that must never be stored as `file_type`. -/
def ooxmlMimes : List String :=
  ["application/vnd.openxmlformats-officedocument.wordprocessingml.document",
   "application/vnd.openxmlformats-officedocument.spreadsheetml.sheet",
   "application/vnd.openxmlformats-officedocument.presentationml.presentation"]

/-- A stored row with `doc_id = "DOC-1"` and surrogate key 1. -/
def exRecord : DocRecord :=
  { id := 1, doc_id := "DOC-1", doc_type := "Policy", doc_title := "X",
    revision_no := "1.0", year := 2024, quarter := none, owner := "Ops",
    status := "Draft", doc_status := "Open", is_uploaded := false,
    uploaded_file := none, file_type := none, file_size := none,
    storage_path := none, download_url := none, uploaded_at := none,
    created_at := 0, updated_at := 0 }

/-- A create request carrying exactly the required metadata. -/
def wValidReq : CreateRequest :=
  { doc_id := some "DOC-1", doc_type := some "Policy", doc_title := some "X",
    revision_no := some "1.0", year := some 2024, owner := some "Ops",
    status := some "Draft" }

/-- A create request that sets `is_uploaded` without any file fields. -/
def c1Request : CreateRequest :=
  { wValidReq with doc_id := some "DOC-9", is_uploaded := some true }

/-- A create request whose `is_uploaded` is accompanied by file fields. -/
def c1GoodRequest : CreateRequest :=
  { wValidReq with
    is_uploaded := some true,
    uploaded_file := some "plan.pdf",
    storage_path := some "/uploads/master-plans/DOC-1/DOC-1_plan_5.pdf" }

/-- A create request whose `owner` is present but empty. -/
def c9Request : CreateRequest := { wValidReq with owner := some "" }

/-- A create request carrying a known long MIME `file_type`. -/
def c10Request : CreateRequest :=
  { wValidReq with
    file_type := some "application/vnd.openxmlformats-officedocument.wordprocessingml.document" }

/-- A create request supplying only `doc_id`. -/
def c5Request : CreateRequest := { doc_id := some "DOC-1" }

/-- The value `createMasterPlanDoc` stores for a present non-empty
`file_type`: the `typeMap` token, else the first 20 characters. -/
def storedFileType (t : String) : String :=
  (typeMap t).getD (String.mk (t.toList.take 20))

/-- An empty server state. -/
def emptyState : SystemState := { store := [], dirs := [], files := [] }

/-- A well-formed small upload request. -/
def wUploadReq : UploadRequest :=
  { file := some { name := "plan.pdf", size := 1024, mimetype := "application/pdf" },
    doc_id := some "DOC-1", doc_type := some "Policy", revision_no := some "1.0" }

/-- An upload request whose file exceeds 10 MiB by one byte. -/
def bigUploadReq : UploadRequest :=
  { wUploadReq with
    file := some { name := "big.pdf", size := 10 * 1024 * 1024 + 1, mimetype := "application/pdf" } }

/-! ## Helper lemmas -/

lemma mem_missing_of_entry {r : CreateRequest} {name : String}
    (hmem : (name, false) ∈ requiredEntries r) : name ∈ missingFields r :=
  List.mem_map_of_mem Prod.fst (List.mem_filter.mpr ⟨hmem, rfl⟩)

lemma entry_mem (r : CreateRequest) (f : ReqField) :
    (fieldName f, fieldTruthy r f) ∈ requiredEntries r := by
  cases f <;> simp [requiredEntries, fieldName, fieldTruthy]

lemma mem_missing_iff (r : CreateRequest) (f : ReqField) :
    fieldName f ∈ missingFields r ↔ fieldTruthy r f = false := by
  constructor
  · intro h
    simp only [missingFields, List.mem_map, List.mem_filter] at h
    obtain ⟨⟨nm, b⟩, ⟨hin, hb⟩, hnm⟩ := h
    simp only [Bool.not_eq_true'] at hb
    subst hb
    subst hnm
    cases f <;> simp_all [requiredEntries, fieldName, fieldTruthy]
  · intro h
    exact mem_missing_of_entry (h ▸ entry_mem r f)

lemma contains_missing (r : CreateRequest) (f : ReqField) :
    (missingFields r).contains (fieldName f) = !(fieldTruthy r f) := by
  cases h : fieldTruthy r f
  · simp [List.elem_iff, (mem_missing_iff r f).mpr h]
  · have hnot : fieldName f ∉ missingFields r := by
      intro hm
      have := (mem_missing_iff r f).mp hm
      simp [h] at this
    simp [List.elem_iff, hnot]

lemma truthy_false_of_absent (r : CreateRequest) (f : ReqField)
    (h : fieldAbsent r f = true) : fieldTruthy r f = false := by
  cases f <;>
    simp only [fieldAbsent, Option.isNone_iff_eq_none] at h <;>
    simp [fieldTruthy, h, truthyS, truthyI]

lemma truthy_false_of_falsy (r : CreateRequest) (f : ReqField)
    (h : fieldFalsyPresent r f = true) : fieldTruthy r f = false := by
  cases f <;>
    simp only [fieldFalsyPresent, beq_iff_eq] at h <;>
    simp [fieldTruthy, h, truthyS, truthyI]

lemma missing_erase_eq (r : CreateRequest) (f : ReqField)
    (h : fieldFalsyPresent r f = true) :
    missingFields (eraseField r f) = missingFields r := by
  cases f <;>
    simp only [fieldFalsyPresent, beq_iff_eq] at h <;>
    simp [missingFields, requiredEntries, eraseField, truthyS, truthyI, h]

lemma create_eq_of_missing_eq (store : List DocRecord) (now : Nat)
    {r₁ r₂ : CreateRequest} (hmiss : missingFields r₁ = missingFields r₂)
    (hlen : 0 < (missingFields r₁).length) :
    createMasterPlanDoc store now r₁ = createMasterPlanDoc store now r₂ := by
  unfold createMasterPlanDoc
  rw [← hmiss]
  simp [hlen]

/-! ## Claim theorems -/

/-- C2 (code bug): the client's blur-triggered uniqueness check does not
invoke the "check document id existence" operation: it fetches
`/masterplandocs/<doc_id>`, which the route table dispatches to the
lookup-by-surrogate-primary-key handler.  With `"DOC-1"` stored (surrogate
key 1), the server-side check operation reports existence, but the client
check returns `false`. -/
theorem clientCheck_misses_existing_docId :
    docIdExists [exRecord] "DOC-1" = true ∧
    (checkDocIdExistsHandler [exRecord] "DOC-1").docExists = some true ∧
    (checkDocIdExistsHandler [exRecord] "DOC-1").status = 200 ∧
    clientCheckDocIdExists [exRecord] "DOC-1" = false := by
  decide

/-- C3: a create request that passes field validation but whose `doc_id`
already names a stored row fails with the conflict message and leaves the
Document Store unchanged. -/
theorem create_duplicate_conflict (store : List DocRecord) (now : Nat)
    (r : CreateRequest) (d : String)
    (hv : missingFields r = []) (hid : r.doc_id = some d)
    (hdup : docIdExists store d = true) :
    (createMasterPlanDoc store now r).1.status = 400 ∧
    (createMasterPlanDoc store now r).1.message = "Document ID already exists" ∧
    (createMasterPlanDoc store now r).1.record = none ∧
    (createMasterPlanDoc store now r).2 = store := by
  unfold createMasterPlanDoc
  simp [hv, hid, hdup]

/-- C3 witness: creating `"DOC-1"` again over a store holding it. -/
theorem create_duplicate_conflict_witness :
    (createMasterPlanDoc [exRecord] 3 wValidReq).1.status = 400 ∧
    (createMasterPlanDoc [exRecord] 3 wValidReq).1.message = "Document ID already exists" ∧
    (createMasterPlanDoc [exRecord] 3 wValidReq).1.record = none ∧
    (createMasterPlanDoc [exRecord] 3 wValidReq).2 = [exRecord] :=
  create_duplicate_conflict [exRecord] 3 wValidReq "DOC-1" (by decide) rfl (by decide)

/-- C4: an upload request whose file exceeds 10 MiB is answered 400 and
the server state — Document Store, directories and stored files — is
untouched. -/
theorem upload_oversize_rejected (s : SystemState) (now : Nat)
    (r : UploadRequest) (f : FileData)
    (hf : r.file = some f) (hsize : 10 * 1024 * 1024 < f.size) :
    (uploadFile s now r).1.status = 400 ∧
    (uploadFile s now r).1.success = false ∧
    (uploadFile s now r).2 = s := by
  unfold uploadFile
  rw [hf]
  by_cases hm : (truthyS r.doc_id && truthyS r.doc_type && truthyS r.revision_no) = true
  · simp [hm, hsize]
  · simp [hm]

/-- C4 witness: a 10 MiB + 1 byte PDF. -/
theorem upload_oversize_rejected_witness :
    (uploadFile emptyState 0 bigUploadReq).1.status = 400 ∧
    (uploadFile emptyState 0 bigUploadReq).1.success = false ∧
    (uploadFile emptyState 0 bigUploadReq).2 = emptyState :=
  upload_oversize_rejected emptyState 0 bigUploadReq
    { name := "big.pdf", size := 10 * 1024 * 1024 + 1, mimetype := "application/pdf" }
    rfl (by decide)

/-- C8: the upload handler never creates, deletes or modifies a row of
the Document Store, whatever the request and outcome. -/
theorem upload_preserves_document_store (s : SystemState) (now : Nat)
    (r : UploadRequest) :
    ((uploadFile s now r).2).store = s.store := by
  unfold uploadFile
  cases r.file with
  | none => rfl
  | some document =>
    dsimp only
    split
    · rfl
    · split
      · rfl
      · split
        · rfl
        · split
          · rfl
          · rfl

/-- C1 counterexample: the create operation accepts a request that sets
`is_uploaded` truthy with no `uploaded_file` and no `storage_path`, and
persists a row violating the invariant. -/
theorem create_accepts_uploaded_without_file :
    (createMasterPlanDoc [] 0 c1Request).1.status = 201 ∧
    ((createMasterPlanDoc [] 0 c1Request).2.map (fun row => row.is_uploaded)) = [true] ∧
    ((createMasterPlanDoc [] 0 c1Request).2.map (fun row => row.storage_path)) = [none] ∧
    ((createMasterPlanDoc [] 0 c1Request).2.map (fun row => row.uploaded_file)) = [none] := by
  decide

/-- C1 (amended): the invariant is preserved by create only for requests
that supply non-empty `uploaded_file` and `storage_path` whenever they set
`is_uploaded` to true (as the client application does); under that
precondition every stored row and the returned record satisfy it. -/
theorem create_upload_invariant_of_file_fields (store : List DocRecord)
    (now : Nat) (r : CreateRequest)
    (hstore : store.all uploadInvariant = true)
    (hfile : r.is_uploaded = some true →
      (∃ u, r.uploaded_file = some u ∧ u ≠ "") ∧
      (∃ p, r.storage_path = some p ∧ p ≠ "")) :
    ((createMasterPlanDoc store now r).2.all uploadInvariant = true) ∧
    ((createMasterPlanDoc store now r).1.record.all uploadInvariant = true) := by
  unfold createMasterPlanDoc
  by_cases h1 : 0 < (missingFields r).length
  · simp [h1, hstore, Option.all]
  · simp only [h1, if_false]
    by_cases h2 : docIdExists store (r.doc_id.getD "") = true
    · simp [h2, hstore, Option.all]
    · have hrow : uploadInvariant
          { id := nextId store, doc_id := r.doc_id.getD "",
            doc_type := r.doc_type.getD "", doc_title := r.doc_title.getD "",
            revision_no := r.revision_no.getD "", year := r.year.getD 0,
            quarter := presentS r.quarter, owner := r.owner.getD "",
            status := r.status.getD "", doc_status := r.doc_status.getD "Open",
            is_uploaded := r.is_uploaded.getD false,
            uploaded_file := presentS r.uploaded_file,
            file_type := dbFileType r.file_type,
            file_size := presentI r.file_size,
            storage_path := presentS r.storage_path,
            download_url := presentS r.download_url,
            uploaded_at := presentS r.uploaded_at,
            created_at := now, updated_at := now } = true := by
        unfold uploadInvariant
        cases hu : r.is_uploaded with
        | none => simp [hu]
        | some b =>
          cases b with
          | false => simp [hu]
          | true =>
            obtain ⟨⟨u, hu1, hu2⟩, ⟨p, hp1, hp2⟩⟩ := hfile hu
            simp [hu, hu1, hp1, presentS, jsOrS, hu2, hp2]
    
      simp [h2, hstore, Option.all, hrow]
  
/-- C1 witness: a request with `is_uploaded = true` and both file fields
supplied preserves the invariant. -/
theorem create_upload_invariant_witness :
    (((createMasterPlanDoc [] 0 c1GoodRequest).2.all uploadInvariant = true) ∧
     ((createMasterPlanDoc [] 0 c1GoodRequest).1.record.all uploadInvariant = true)) :=
  create_upload_invariant_of_file_fields [] 0 c1GoodRequest rfl
    (fun _ => ⟨⟨"plan.pdf", rfl, by decide⟩,
      ⟨"/uploads/master-plans/DOC-1/DOC-1_plan_5.pdf", rfl, by decide⟩⟩)

lemma not_mem_missing (r : CreateRequest) (g : ReqField)
    (htg : fieldTruthy r g = true) : fieldName g ∉ missingFields r := by
  intro hm
  have := (mem_missing_iff r g).mp hm
  rw [htg] at this
  simp at this

lemma decide_mem_missing (r : CreateRequest) (g : ReqField) :
    decide (fieldName g ∈ missingFields r) = !(fieldTruthy r g) := by
  cases htg : fieldTruthy r g
  · simp [(mem_missing_iff r g).mpr htg]
  · simp [not_mem_missing r g htg]

lemma absent_or_mem (r : CreateRequest) (g : ReqField) :
    fieldAbsent r g = false ∨ (missingFields r).contains (fieldName g) = true := by
  cases habs : fieldAbsent r g
  · exact Or.inl rfl
  · refine Or.inr ?_
    have hm := (mem_missing_iff r g).mpr (truthy_false_of_absent r g habs)
    simp [List.elem_iff, hm]

/-- C5: a create request with at least one absent required field fails
with 400, the message lists exactly the fields the validation deems
missing (every absent required field among them), no row is persisted. -/
theorem create_missing_required_fields (store : List DocRecord) (now : Nat)
    (r : CreateRequest) (h : ∃ f : ReqField, fieldAbsent r f = true) :
    (createMasterPlanDoc store now r).1.status = 400 ∧
    (createMasterPlanDoc store now r).1.message =
      "Missing required fields: " ++ joinComma (missingFields r) ∧
    (createMasterPlanDoc store now r).1.record = none ∧
    (createMasterPlanDoc store now r).2 = store ∧
    (allReqFields.all (fun g =>
      ((missingFields r).contains (fieldName g)) == (!(fieldTruthy r g)))) = true ∧
    (allReqFields.all (fun g =>
      !(fieldAbsent r g) || (missingFields r).contains (fieldName g))) = true := by
  obtain ⟨f, hf⟩ := h
  have ht : fieldTruthy r f = false := truthy_false_of_absent r f hf
  have hmem : fieldName f ∈ missingFields r := (mem_missing_iff r f).mpr ht
  have hlen : 0 < (missingFields r).length :=
    List.length_pos.mpr (List.ne_nil_of_mem hmem)
  refine ⟨?_, ?_, ?_, ?_, ?_, ?_⟩
  · unfold createMasterPlanDoc; simp [hlen]
  · unfold createMasterPlanDoc; simp [hlen]
  · unfold createMasterPlanDoc; simp [hlen]
  · unfold createMasterPlanDoc; simp [hlen]
  · simp [allReqFields, decide_mem_missing]
  · simp only [allReqFields, List.all_cons, List.all_nil, Bool.and_true,
      Bool.and_eq_true, Bool.or_eq_true, Bool.not_eq_true', decide_eq_true_eq]
    exact ⟨absent_or_mem r .doc_id, absent_or_mem r .doc_type,
      absent_or_mem r .doc_title, absent_or_mem r .revision_no,
      absent_or_mem r .year, absent_or_mem r .owner, absent_or_mem r .status⟩

/-- C5 witness: a request supplying only `doc_id`. -/
theorem create_missing_required_fields_witness :
    (createMasterPlanDoc [] 0 c5Request).1.status = 400 ∧
    (createMasterPlanDoc [] 0 c5Request).1.message =
      "Missing required fields: " ++ joinComma (missingFields c5Request) ∧
    (createMasterPlanDoc [] 0 c5Request).1.record = none ∧
    (createMasterPlanDoc [] 0 c5Request).2 = [] ∧
    (allReqFields.all (fun g =>
      ((missingFields c5Request).contains (fieldName g)) == (!(fieldTruthy c5Request g)))) = true ∧
    (allReqFields.all (fun g =>
      !(fieldAbsent c5Request g) || (missingFields c5Request).contains (fieldName g))) = true :=
  create_missing_required_fields [] 0 c5Request ⟨.doc_type, by decide⟩

/-- C9: a required field that is present but falsy (empty string, or 0
for `year`) is treated exactly as if it were absent: the whole response
and resulting store coincide with those for the request with the field
removed, the request fails with 400, and the field is listed as missing. -/
theorem create_falsy_treated_as_absent (store : List DocRecord) (now : Nat)
    (r : CreateRequest) (f : ReqField) (h : fieldFalsyPresent r f = true) :
    createMasterPlanDoc store now r = createMasterPlanDoc store now (eraseField r f) ∧
    (createMasterPlanDoc store now r).1.status = 400 ∧
    (missingFields r).contains (fieldName f) = true := by
  have ht : fieldTruthy r f = false := truthy_false_of_falsy r f h
  have hmem : fieldName f ∈ missingFields r := (mem_missing_iff r f).mpr ht
  have hlen : 0 < (missingFields r).length :=
    List.length_pos.mpr (List.ne_nil_of_mem hmem)
  have hmiss : missingFields r = missingFields (eraseField r f) :=
    (missing_erase_eq r f h).symm
  refine ⟨create_eq_of_missing_eq store now hmiss hlen, ?_, ?_⟩
  · unfold createMasterPlanDoc; simp [hlen]
  · simp [List.elem_iff, hmem]

/-- C9 witness: `owner` present but empty. -/
theorem create_falsy_treated_as_absent_witness :
    createMasterPlanDoc [] 0 c9Request =
      createMasterPlanDoc [] 0 (eraseField c9Request .owner) ∧
    (createMasterPlanDoc [] 0 c9Request).1.status = 400 ∧
    (missingFields c9Request).contains (fieldName .owner) = true :=
  create_falsy_treated_as_absent [] 0 c9Request .owner (by decide)

/-- C7: a create request passing validation with a fresh `doc_id` and no
optional fields supplied is answered 201; the stored record carries
`doc_status = "Open"`, `is_uploaded = false`, null file-attachment
fields, and both timestamps stamped with the handler's clock. -/
theorem create_minimal_defaults (store : List DocRecord) (now : Nat)
    (r : CreateRequest)
    (hv : missingFields r = [])
    (hfresh : docIdExists store (r.doc_id.getD "") = false)
    (hds : r.doc_status = none) (hiu : r.is_uploaded = none)
    (huf : r.uploaded_file = none) (hft : r.file_type = none)
    (hfs : r.file_size = none) (hsp : r.storage_path = none)
    (hdu : r.download_url = none) (hua : r.uploaded_at = none) :
    (createMasterPlanDoc store now r).1.status = 201 ∧
    (createMasterPlanDoc store now r).1.record.isSome = true ∧
    ((createMasterPlanDoc store now r).1.record.all (fun row =>
      (row.doc_status == "Open") && (row.is_uploaded == false) &&
      row.uploaded_file.isNone && row.file_type.isNone && row.file_size.isNone &&
      row.storage_path.isNone && row.download_url.isNone && row.uploaded_at.isNone &&
      (row.created_at == now) && (row.updated_at == now))) = true ∧
    (createMasterPlanDoc store now r).2.length = store.length + 1 := by
  unfold createMasterPlanDoc
  simp [hv, hfresh, hds, hiu, huf, hft, hfs, hsp, hdu, hua,
    presentS, jsOrS, presentI, dbFileType, simplifyFileType, Option.all]

/-- C7 witness: the spec's example request over an empty store. -/
theorem create_minimal_defaults_witness :
    (createMasterPlanDoc [] 9 wValidReq).1.status = 201 ∧
    (createMasterPlanDoc [] 9 wValidReq).1.record.isSome = true ∧
    ((createMasterPlanDoc [] 9 wValidReq).1.record.all (fun row =>
      (row.doc_status == "Open") && (row.is_uploaded == false) &&
      row.uploaded_file.isNone && row.file_type.isNone && row.file_size.isNone &&
      row.storage_path.isNone && row.download_url.isNone && row.uploaded_at.isNone &&
      (row.created_at == 9) && (row.updated_at == 9))) = true ∧
    (createMasterPlanDoc [] 9 wValidReq).2.length = ([] : List DocRecord).length + 1 :=
  create_minimal_defaults [] 9 wValidReq (by decide) rfl rfl rfl rfl rfl rfl rfl rfl rfl

lemma typeMap_token {t tok : String} (h : typeMap t = some tok) :
    tok ≠ "" ∧ tok.length ≤ 20 := by
  unfold typeMap at h
  split_ifs at h
  all_goals first
  | exact Option.noConfusion h
  | (injection h with h2; subst h2; exact ⟨by decide, by decide⟩)

lemma toList_ne_nil {t : String} (h : t ≠ "") : t.toList ≠ [] := by
  intro hd
  apply h
  cases t with
  | mk data =>
    simp only [String.toList] at hd
    simp [hd]

lemma storedFileType_ne_empty {t : String} (h : t ≠ "") : storedFileType t ≠ "" := by
  unfold storedFileType
  cases htm : typeMap t with
  | some tok => simpa using (typeMap_token htm).1
  | none =>
    simp only [Option.getD]
    cases hcs : t.toList with
    | nil => exact absurd hcs (toList_ne_nil h)
    | cons c cs =>
      intro he
      have := congrArg String.data he
      simp [hcs] at this

lemma storedFileType_length (t : String) : (storedFileType t).length ≤ 20 := by
  unfold storedFileType
  cases htm : typeMap t with
  | some tok => simpa using (typeMap_token htm).2
  | none =>
    have h1 : ((String.mk (t.toList.take 20)).length) = (t.toList.take 20).length := rfl
    simp only [Option.getD, h1, List.length_take]
    exact min_le_left _ _

lemma dbFileType_some {t : String} (h : t ≠ "") :
    dbFileType (some t) = some (storedFileType t) := by
  have hne : (storedFileType t == "") = false := by
    simp [storedFileType_ne_empty h]
  unfold dbFileType simplifyFileType jsOrS
  simp only [beq_iff_eq, h, if_false]
  rw [show ((typeMap t).getD (String.mk (t.toList.take 20))) = storedFileType t from rfl]
  simp [storedFileType_ne_empty h]

/-- C10: a persisted record created from a request with a present,
non-empty `file_type` stores the normalized token: the `typeMap`
abbreviation for known MIME types, else the first 20 characters; the
stored value never exceeds 20 characters and is never one of the full
OOXML MIME strings. -/
theorem create_normalizes_file_type (store : List DocRecord) (now : Nat)
    (r : CreateRequest) (t : String)
    (ht : r.file_type = some t) (hne : t ≠ "")
    (hs : (createMasterPlanDoc store now r).1.status = 201) :
    ((createMasterPlanDoc store now r).1.record.all
      (fun row => row.file_type == some (storedFileType t))) = true ∧
    (storedFileType t).length ≤ 20 ∧
    (ooxmlMimes.all (fun m => storedFileType t != m)) = true := by
  refine ⟨?_, storedFileType_length t, ?_⟩
  · unfold createMasterPlanDoc at hs ⊢
    by_cases h1 : 0 < (missingFields r).length
    · simp [h1] at hs
    · simp only [h1, if_false] at hs ⊢
      by_cases h2 : docIdExists store (r.doc_id.getD "") = true
      · simp [h2] at hs
      · simp [h2, Option.all, ht, dbFileType_some hne]
  · have hlen := storedFileType_length t
    simp only [ooxmlMimes, List.all_cons, List.all_nil, Bool.and_true,
      Bool.and_eq_true]
    refine ⟨?_, ?_, ?_⟩ <;>
      (rw [bne_iff_ne]; intro he; rw [he] at hlen; exact absurd hlen (by decide))

/-- C10 witness: the long OOXML Word MIME type is stored as `"docx"`. -/
theorem create_normalizes_file_type_witness :
    ((createMasterPlanDoc [] 0 c10Request).1.record.all
      (fun row => row.file_type ==
        some (storedFileType
          "application/vnd.openxmlformats-officedocument.wordprocessingml.document"))) = true ∧
    (storedFileType
      "application/vnd.openxmlformats-officedocument.wordprocessingml.document").length ≤ 20 ∧
    (ooxmlMimes.all (fun m =>
      storedFileType
        "application/vnd.openxmlformats-officedocument.wordprocessingml.document" != m)) = true :=
  create_normalizes_file_type [] 0 c10Request
    "application/vnd.openxmlformats-officedocument.wordprocessingml.document"
    rfl (by decide) (by decide)

/-- C6: a successful upload stores the file under the per-`doc_id`
directory with the generated name `<doc_id>_<basename>_<timestamp><ext>`,
and reports the storage path
`/uploads/master-plans/<doc_id>/<that name>`. -/
theorem upload_success_storage_path (s : SystemState) (now : Nat)
    (r : UploadRequest) (f : FileData)
    (hf : r.file = some f)
    (hs : (uploadFile s now r).1.status = 200) :
    (uploadFile s now r).1.fileName =
      some (r.doc_id.getD "" ++ "_" ++ basenameNoExt f.name ++ "_" ++
        natRepr now ++ extname f.name) ∧
    (uploadFile s now r).1.storagePath =
      some ("/uploads/master-plans/" ++ r.doc_id.getD "" ++ "/" ++
        (r.doc_id.getD "" ++ "_" ++ basenameNoExt f.name ++ "_" ++
          natRepr now ++ extname f.name)) ∧
    (uploadFile s now r).2.files =
      s.files ++ [uploadsRoot ++ "/" ++ r.doc_id.getD "" ++ "/" ++
        (r.doc_id.getD "" ++ "_" ++ basenameNoExt f.name ++ "_" ++
          natRepr now ++ extname f.name)] := by
  unfold uploadFile at hs ⊢
  rw [hf] at hs ⊢
  by_cases h1 : (truthyS r.doc_id && truthyS r.doc_type && truthyS r.revision_no) = true
  · simp only [h1, Bool.not_true, Bool.false_eq_true, if_false] at hs ⊢
    by_cases h2 : 10 * 1024 * 1024 < f.size
    · simp [h2] at hs
    · simp only [h2, if_false] at hs ⊢
      by_cases h3 : f.mimetype ∈ allowedTypes
      · simp [h3]
      · simp [h3] at hs
  · simp [h1] at hs

/-- C6 witness: uploading `plan.pdf` for `DOC-1` at clock 5. -/
theorem upload_success_storage_path_witness :
    (uploadFile emptyState 5 wUploadReq).1.fileName =
      some (wUploadReq.doc_id.getD "" ++ "_" ++ basenameNoExt "plan.pdf" ++ "_" ++
        natRepr 5 ++ extname "plan.pdf") ∧
    (uploadFile emptyState 5 wUploadReq).1.storagePath =
      some ("/uploads/master-plans/" ++ wUploadReq.doc_id.getD "" ++ "/" ++
        (wUploadReq.doc_id.getD "" ++ "_" ++ basenameNoExt "plan.pdf" ++ "_" ++
          natRepr 5 ++ extname "plan.pdf")) ∧
    (uploadFile emptyState 5 wUploadReq).2.files =
      emptyState.files ++ [uploadsRoot ++ "/" ++ wUploadReq.doc_id.getD "" ++ "/" ++
        (wUploadReq.doc_id.getD "" ++ "_" ++ basenameNoExt "plan.pdf" ++ "_" ++
          natRepr 5 ++ extname "plan.pdf")] :=
  upload_success_storage_path emptyState 5 wUploadReq
    { name := "plan.pdf", size := 1024, mimetype := "application/pdf" } rfl (by decide)
